import Mathlib

/-!
Verification of the "Conversation Session" component of the advanced
mini-chatbot (`src/mini_chatbot/advanced/main.py`), shallowly embedded in
Lean 4.  The remote Gemini endpoint, the environment, the clock and the
file system are modelled as explicit parameters (oracles): a remote call
either succeeds with a response text or fails with an error text; a file
write either succeeds or fails with an error text.  `datetime` instants are
abstracted as natural numbers; `datetime.isoformat()` is abstracted as an
injective rendering of the instant.
-/

set_option maxRecDepth 8000

namespace MiniChatbot

/-- Mirrors Python `str.lower()` for the ASCII range (the only range the
classification substrings use), via `Char.toLower`. -/
def strToLower (s : String) : String :=
  ⟨s.data.map Char.toLower⟩

/-- `listStartsWith l p` is true when `p` is an initial segment of `l`;
helper for the Python substring test `p in s`. -/
def listStartsWith : List Char → List Char → Bool
  | _, [] => true
  | [], _ :: _ => false
  | a :: as, b :: bs => a == b && listStartsWith as bs

/-- `containsSubAux l p` is true when `p` occurs contiguously in `l`. -/
def containsSubAux : List Char → List Char → Bool
  | [], pat => pat.isEmpty
  | a :: as, pat => listStartsWith (a :: as) pat || containsSubAux as pat

/-- Mirrors the Python membership test `pat in s` on strings. -/
def strContainsSub (s pat : String) : Bool :=
  containsSubAux s.data pat.data

/-- Embeds the dataclass `ChatMessage` (main.py:52-62): role, content and a
timestamp.  The Python `timestamp` defaults to `datetime.now()` in
`__post_init__`; every construction site in the embedding passes the
current instant explicitly, so the field is total here. -/
structure ChatMessage where
  role : String
  content : String
  timestamp : Nat
deriving Repr, DecidableEq

/-- Embeds the mutable fields of `AdvancedChatbot` that carry the session
state: `api_key`, `model` and `conversation_history` (main.py:77-80).  The
opaque `chat_session` handle holds no observable state in the embedding. -/
structure ChatbotState where
  apiKey : String
  model : String
  conversationHistory : List ChatMessage
deriving Repr, DecidableEq

/-- The system prompt literal of main.py:83-87, exactly as the Python
triple-quoted string renders it (embedded newlines and indentation
included). -/
def systemPrompt : String :=
  "You are a friendly, helpful, and engaging chatbot assistant.\n        You have a warm personality and enjoy having conversations with users.\n        You're knowledgeable about a wide range of topics but keep your responses concise and conversational.\n        If you don't know something, you're honest about it.\n        You remember context from the conversation and can refer back to previous messages."

/-- Abstracts `datetime.isoformat()`: some injective rendering of the
instant as text. -/
def isoText (t : Nat) : String :=
  toString t

/-- `_start_chat_session` (main.py:114-130): constructs the local model
handle and appends the system message to the internal history.  The
`genai.GenerativeModel`/`start_chat` constructions are local object
creations with no remote round-trip, so the defensive `except` branch is
unreachable in the model and the operation is total. -/
def start_chat_session (st : ChatbotState) (now : Nat) : ChatbotState :=
  { st with conversationHistory :=
      st.conversationHistory ++ [⟨"system", systemPrompt, now⟩] }

/-- Result of a remote `chat_session.send_message` call: the response text
on success, or the text of the raised exception on failure. -/
inductive RemoteResult where
  | success (text : String)
  | failure (errText : String)
deriving Repr, DecidableEq

/-- The literal returned on a quota/limit failure (main.py:170). -/
def rateLimitedResponse : String :=
  "I'm getting too many requests right now. Please wait a moment and try again."

/-- The f-string returned on an "api" failure (main.py:172); `e` is the
original (not lowercased) exception text. -/
def connectivityResponse (e : String) : String :=
  "I'm having trouble connecting to my brain right now. Error: " ++ e

/-- The f-string returned on any other failure (main.py:174). -/
def unknownResponse (e : String) : String :=
  "Something unexpected happened: " ++ e

/-- `get_ai_response` (main.py:140-174): appends the user message, then on
success appends the assistant message and returns its text; on failure
classifies the lowercased exception text and returns a fallback string
without touching the history further.  Returns the response string and the
updated state. -/
def get_ai_response (st : ChatbotState) (userMessage : String)
    (remote : RemoteResult) (now : Nat) : String × ChatbotState :=
  let userMsg : ChatMessage := ⟨"user", userMessage, now⟩
  let st1 := { st with conversationHistory := st.conversationHistory ++ [userMsg] }
  match remote with
  | .success aiResponse =>
      let aiMsg : ChatMessage := ⟨"assistant", aiResponse, now⟩
      (aiResponse,
        { st1 with conversationHistory := st1.conversationHistory ++ [aiMsg] })
  | .failure e =>
      let errorMessage := strToLower e
      if strContainsSub errorMessage "quota" || strContainsSub errorMessage "limit" then
        (rateLimitedResponse, st1)
      else if strContainsSub errorMessage "api" then
        (connectivityResponse e, st1)
      else
        (unknownResponse e, st1)

/-- `get_conversation_summary` (main.py:176-188). -/
def get_conversation_summary (st : ChatbotState) : String :=
  if st.conversationHistory.length ≤ 1 then
    "No conversation yet."
  else
    let userMessages := st.conversationHistory.filter (fun m => m.role == "user")
    let aiMessages := st.conversationHistory.filter (fun m => m.role == "assistant")
    "Conversation stats: " ++ toString userMessages.length ++ " user messages, "
      ++ toString aiMessages.length ++ " AI responses"

/-- One serialized entry of `save_conversation`'s `conversation_data`
(main.py:199-209): role, content, timestamp as text. -/
structure SavedEntry where
  role : String
  content : String
  timestampText : String
deriving Repr, DecidableEq

/-- The `conversation_data` list built by `save_conversation`
(main.py:196-209): every history entry whose role is not "system", in
history order. -/
def conversationData (st : ChatbotState) : List SavedEntry :=
  (st.conversationHistory.filter (fun m => m.role != "system")).map
    (fun m => ⟨m.role, m.content, isoText m.timestamp⟩)

/-- Outcome of `save_conversation`: either the file was written with the
given entries, or the write raised and the error was printed.  The Python
function has no `sys.exit` and re-raises nothing: both branches return
normally, which the two constructors reflect. -/
inductive SaveOutcome where
  | saved (filename : String) (entries : List SavedEntry)
  | errorReported (message : String)
deriving Repr, DecidableEq

/-- `save_conversation` (main.py:190-216) with an explicit filename and an
I/O oracle: `ioError = none` means the write succeeds, `ioError = some e`
means `open`/`json.dump` raises with text `e`.  Returns the outcome and
the (never modified) state. -/
def save_conversation (st : ChatbotState) (filename : String)
    (ioError : Option String) : SaveOutcome × ChatbotState :=
  let data := conversationData st
  match ioError with
  | none => (.saved filename data, st)
  | some e => (.errorReported ("❌ Error saving conversation: " ++ e), st)

/-- `clear_history` (main.py:218-222): resets the history to empty and
starts a fresh chat session (which appends the fresh system message). -/
def clear_history (st : ChatbotState) (now : Nat) : ChatbotState :=
  start_chat_session { st with conversationHistory := [] } now

/-- Outcome of constructing `AdvancedChatbot`: either the process exited
with a code after printing the given lines, or the session started. -/
inductive InitOutcome where
  | exited (code : Nat) (output : List String)
  | started (st : ChatbotState)
deriving Repr, DecidableEq

/-- The lines printed by `_initialize_client` when no key is available
(main.py:95-101). -/
def missingKeyOutput : List String :=
  [ "❌ Error: Google AI API key not found!"
  , "Please set your API key in one of these ways:"
  , "1. Set the GEMINI_API_KEY environment variable"
  , "2. Pass the API key when creating the chatbot"
  , "\nYou can get an API key from: https://makersuite.google.com/app/apikey" ]

/-- `self.api_key = api_key or os.getenv("GEMINI_API_KEY")` (main.py:77):
Python `or` keeps the first operand when it is truthy (a non-empty
string), else the environment lookup (which is `None` when unset). -/
def effectiveApiKey (apiKeyArg envKey : Option String) : Option String :=
  match apiKeyArg with
  | some s => if s == "" then envKey else some s
  | none => envKey

/-- `AdvancedChatbot.__init__` together with `_initialize_client` and
`_start_chat_session` (main.py:68-130).  `connOk` is the oracle for the
credential-validation round trip (`genai.configure` + `list_models`,
main.py:104-107); `connErrText` is the exception text when it fails.  With
no usable key the process exits with code 1 after printing
`missingKeyOutput`; with a bad connection it exits with code 1; otherwise
the session starts with the system message as the sole history entry. -/
def initChatbot (apiKeyArg envKey : Option String) (modelName : String)
    (connOk : Bool) (connErrText : String) (now : Nat) : InitOutcome :=
  match effectiveApiKey apiKeyArg envKey with
  | none => .exited 1 missingKeyOutput
  | some k =>
    if k == "" then .exited 1 missingKeyOutput
    else if connOk then
      .started (start_chat_session ⟨k, modelName, []⟩ now)
    else
      .exited 1
        [ "❌ Error connecting to Google AI API: " ++ connErrText
        , "Please check your API key and internet connection." ]

/-- The Transcript invariant of the spec's data model: the first entry, if
present, is the system message carrying the persona text, and no other
entry has the system role. -/
def transcriptInvB : List ChatMessage → Bool
  | [] => true
  | m :: rest =>
      m.role == "system" && m.content == systemPrompt
        && rest.all (fun x => x.role != "system")

/-- The first branch condition of the failure classifier (main.py:169). -/
def isRateLimitedErr (e : String) : Bool :=
  strContainsSub (strToLower e) "quota" || strContainsSub (strToLower e) "limit"

/-- The second branch condition of the failure classifier (main.py:171):
reached only when the first branch did not fire. -/
def isConnectivityErr (e : String) : Bool :=
  !(isRateLimitedErr e) && strContainsSub (strToLower e) "api"

/-- The fall-through branch of the failure classifier (main.py:173). -/
def isUnknownErr (e : String) : Bool :=
  !(isRateLimitedErr e) && !(strContainsSub (strToLower e) "api")

/-- How many of the three failure categories a given error text falls in. -/
def classCount (e : String) : Nat :=
  (if isRateLimitedErr e then 1 else 0)
    + (if isConnectivityErr e then 1 else 0)
    + (if isUnknownErr e then 1 else 0)

/-- **C1.** For every non-empty `user_text`, a successful `send` appends
exactly the user message followed by an assistant message carrying the
endpoint's text, growing the Transcript by exactly 2, and returns the
endpoint's text. -/
theorem send_success_appends_two (st : ChatbotState) (u resp : String)
    (now : Nat) (h : u ≠ "") :
    (get_ai_response st u (.success resp) now).2.conversationHistory
      = st.conversationHistory ++ [⟨"user", u, now⟩, ⟨"assistant", resp, now⟩]
    ∧ (get_ai_response st u (.success resp) now).2.conversationHistory.length
      = st.conversationHistory.length + 2
    ∧ (get_ai_response st u (.success resp) now).1 = resp := by
  refine ⟨?_, ?_, rfl⟩ <;> simp [get_ai_response]

/-- Witness for C1 at a concrete input. -/
theorem send_success_appends_two_w :
    ("Hello" : String) ≠ ""
    ∧ ((get_ai_response ⟨"k", "gemini-1.5-flash", []⟩ "Hello"
          (.success "Hi there") 0).2.conversationHistory
        = [⟨"user", "Hello", 0⟩, ⟨"assistant", "Hi there", 0⟩]
      ∧ (get_ai_response ⟨"k", "gemini-1.5-flash", []⟩ "Hello"
          (.success "Hi there") 0).2.conversationHistory.length = 0 + 2
      ∧ (get_ai_response ⟨"k", "gemini-1.5-flash", []⟩ "Hello"
          (.success "Hi there") 0).1 = "Hi there") :=
  ⟨by decide, send_success_appends_two ⟨"k", "gemini-1.5-flash", []⟩
    "Hello" "Hi there" 0 (by decide)⟩

/-- **C2.** On any remote-call failure, `send` returns normally (it is a
total function of the failure text): the returned string is one of the
three classified fallback strings, and the assistant role is never
appended — the history gains exactly the user message. -/
theorem send_failure_classified (st : ChatbotState) (u e : String) (now : Nat) :
    (get_ai_response st u (.failure e) now).2.conversationHistory
      = st.conversationHistory ++ [⟨"user", u, now⟩]
    ∧ ((get_ai_response st u (.failure e) now).1 = rateLimitedResponse
       ∨ (get_ai_response st u (.failure e) now).1 = connectivityResponse e
       ∨ (get_ai_response st u (.failure e) now).1 = unknownResponse e) := by
  unfold get_ai_response
  by_cases h1 : (strContainsSub (strToLower e) "quota"
      || strContainsSub (strToLower e) "limit") = true
  · simp [h1]
  · by_cases h2 : strContainsSub (strToLower e) "api" = true
    · simp [h1, h2]
    · simp [h1, h2]

/-- **C10.** After a failed `send`, the Transcript grows by exactly 1: the
user message is retained, no assistant message is added, and the user
count reported by `summary` includes the failed turn. -/
theorem send_failure_appends_user_only (st : ChatbotState) (u e : String)
    (now : Nat) :
    (get_ai_response st u (.failure e) now).2.conversationHistory
      = st.conversationHistory ++ [⟨"user", u, now⟩]
    ∧ (get_ai_response st u (.failure e) now).2.conversationHistory.length
      = st.conversationHistory.length + 1
    ∧ (get_ai_response st u (.failure e) now).2.conversationHistory.filter
        (fun m => m.role == "assistant")
      = st.conversationHistory.filter (fun m => m.role == "assistant")
    ∧ ((get_ai_response st u (.failure e) now).2.conversationHistory.filter
        (fun m => m.role == "user")).length
      = (st.conversationHistory.filter (fun m => m.role == "user")).length + 1 := by
  unfold get_ai_response
  by_cases h1 : (strContainsSub (strToLower e) "quota"
      || strContainsSub (strToLower e) "limit") = true
  · simp [h1, List.filter_append]
  · by_cases h2 : strContainsSub (strToLower e) "api" = true
    · simp [h1, h2, List.filter_append]
    · simp [h1, h2, List.filter_append]

/-- The rate-limited fallback string never coincides with a connectivity
fallback string, whatever the exception text: they differ at the fifth
character. -/
theorem rateLimited_ne_connectivity_aux (e : String) :
    rateLimitedResponse ≠ connectivityResponse e := by
  intro h
  have h2 := congrArg (fun s => s.data.get? 4) h
  simp only [rateLimitedResponse, connectivityResponse, String.data_append] at h2
  have h3 : (some 'g' : Option Char) = some 'h' := h2
  exact absurd h3 (by decide)

/-- **C3.** The failure classification is total and mutually exclusive —
every error text satisfies exactly one of the three branch conditions —
and a failure whose lowercased text contains "quota" or "limit" produces
the rate-limited response, which differs from every connectivity-failure
response. -/
theorem failure_classification_exclusive (e0 e eCon : String)
    (st : ChatbotState) (u : String) (now : Nat)
    (h : strContainsSub (strToLower e) "quota" = true
         ∨ strContainsSub (strToLower e) "limit" = true) :
    classCount e0 = 1
    ∧ (get_ai_response st u (.failure e) now).1 = rateLimitedResponse
    ∧ rateLimitedResponse ≠ connectivityResponse eCon := by
  refine ⟨?_, ?_, rateLimited_ne_connectivity_aux eCon⟩
  · unfold classCount isConnectivityErr isUnknownErr
    cases hq : isRateLimitedErr e0 <;>
      cases ha : strContainsSub (strToLower e0) "api" <;> simp [hq, ha]
  · have h1 : (strContainsSub (strToLower e) "quota"
        || strContainsSub (strToLower e) "limit") = true := by
      rcases h with h | h <;> simp [h]
    unfold get_ai_response
    simp [h1]

/-- Witness for C3 at a concrete failing error text. -/
theorem failure_classification_exclusive_w :
    (strContainsSub (strToLower "Quota exceeded") "quota" = true
     ∨ strContainsSub (strToLower "Quota exceeded") "limit" = true)
    ∧ (classCount "boom" = 1
      ∧ (get_ai_response ⟨"k", "gemini-1.5-flash", []⟩ "hi"
          (.failure "Quota exceeded") 0).1 = rateLimitedResponse
      ∧ rateLimitedResponse ≠ connectivityResponse "API is down") :=
  ⟨by decide,
   failure_classification_exclusive "boom" "Quota exceeded" "API is down"
     ⟨"k", "gemini-1.5-flash", []⟩ "hi" 0 (by decide)⟩

/-- **C4.** With no usable credential (the explicit argument and the
environment both fail to supply a non-empty string), construction exits
with code 1 before any prompt, printing lines that name GEMINI_API_KEY,
and no session state is produced. -/
theorem init_no_credential (arg env : Option String) (mn ce : String)
    (cok : Bool) (now : Nat)
    (h : effectiveApiKey arg env = none ∨ effectiveApiKey arg env = some "") :
    initChatbot arg env mn cok ce now = .exited 1 missingKeyOutput
    ∧ (∀ st : ChatbotState, initChatbot arg env mn cok ce now ≠ .started st)
    ∧ (∃ line ∈ missingKeyOutput, strContainsSub line "GEMINI_API_KEY" = true) := by
  have hmain : initChatbot arg env mn cok ce now = .exited 1 missingKeyOutput := by
    unfold initChatbot
    rcases h with h | h <;> rw [h] <;> simp
  refine ⟨hmain, ?_, ?_⟩
  · intro st hst
    rw [hmain] at hst
    exact InitOutcome.noConfusion hst
  · exact ⟨"1. Set the GEMINI_API_KEY environment variable", by decide, by decide⟩

/-- Witness for C4: no explicit key and no environment variable. -/
theorem init_no_credential_w :
    (effectiveApiKey none none = none ∨ effectiveApiKey none none = some "")
    ∧ (initChatbot none none "gemini-1.5-flash" true "" 0
        = .exited 1 missingKeyOutput
      ∧ (∀ st : ChatbotState,
          initChatbot none none "gemini-1.5-flash" true "" 0 ≠ .started st)
      ∧ (∃ line ∈ missingKeyOutput,
          strContainsSub line "GEMINI_API_KEY" = true)) :=
  ⟨by decide,
   init_no_credential none none "gemini-1.5-flash" "" true 0 (by decide)⟩

/-- **C5.** `clear` always succeeds (it is a total function) and from every
state leaves a Transcript of length exactly 1 holding a fresh system
message, after which `summary` reports the fixed no-conversation
message. -/
theorem clear_resets_to_system_only (st : ChatbotState) (now : Nat) :
    (clear_history st now).conversationHistory = [⟨"system", systemPrompt, now⟩]
    ∧ (clear_history st now).conversationHistory.length = 1
    ∧ get_conversation_summary (clear_history st now) = "No conversation yet." :=
  ⟨rfl, rfl, rfl⟩

/-- **C7.** When the file write raises, `save_conversation` reports the
error in its outcome (it has no exiting branch, so the process continues)
and the session state — in particular the Transcript — is exactly the
state before the call. -/
theorem persist_failure_reports_and_preserves (st : ChatbotState)
    (f e : String) :
    (save_conversation st f (some e)).2 = st
    ∧ (save_conversation st f (some e)).2.conversationHistory
      = st.conversationHistory
    ∧ (save_conversation st f (some e)).1
      = .errorReported ("❌ Error saving conversation: " ++ e) :=
  ⟨rfl, rfl, rfl⟩

/-- **C6.** For every Transcript satisfying the data-model invariant (the
system entry first, no other system entry), `persist` serializes exactly
the non-system entries in transcript order as {role, content,
timestamp-as-text} objects with role and content preserved, omits the
system entry, and writes (Transcript length − 1) entries. -/
theorem persist_excludes_system (st : ChatbotState) (f : String)
    (hinv : transcriptInvB st.conversationHistory = true)
    (hne : st.conversationHistory ≠ []) :
    conversationData st
      = (st.conversationHistory.drop 1).map
          (fun m => ⟨m.role, m.content, isoText m.timestamp⟩)
    ∧ (∀ en ∈ conversationData st, en.role ≠ "system")
    ∧ (conversationData st).length = st.conversationHistory.length - 1
    ∧ (save_conversation st f none).1 = .saved f (conversationData st) := by
  rcases hL : st.conversationHistory with _ | ⟨m, rest⟩
  · exact absurd hL hne
  · rw [hL] at hinv
    simp only [transcriptInvB, Bool.and_eq_true, beq_iff_eq,
      List.all_eq_true] at hinv
    obtain ⟨⟨hrole, -⟩, hall⟩ := hinv
    have hfilter : (m :: rest).filter (fun x => x.role != "system") = rest := by
      rw [List.filter_cons, if_neg (by simp [hrole])]
      exact List.filter_eq_self.mpr hall
    constructor
    · simp [conversationData, hL, hfilter]
    refine ⟨?_, ?_, rfl⟩
    · intro en hen
      simp only [conversationData, hL, hfilter, List.mem_map] at hen
      obtain ⟨x, hx, rfl⟩ := hen
      have := hall x hx
      simpa using this
    · simp [conversationData, hL, hfilter]

/-- A sample transcript with the system entry, one user turn and one
assistant turn, used to evaluate theorems with hypotheses at a concrete
state. -/
def sampleHistory : List ChatMessage :=
  [⟨"system", systemPrompt, 0⟩, ⟨"user", "Hello", 1⟩, ⟨"assistant", "Hi", 2⟩]

/-- A sample session state over `sampleHistory`. -/
def sampleState : ChatbotState :=
  ⟨"k", "gemini-1.5-flash", sampleHistory⟩

/-- Witness for C6: a transcript of a system entry, one user turn and one
assistant turn. -/
theorem persist_excludes_system_w :
    (transcriptInvB sampleState.conversationHistory = true
      ∧ sampleState.conversationHistory ≠ [])
    ∧ (conversationData sampleState
        = (sampleState.conversationHistory.drop 1).map
            (fun m => ⟨m.role, m.content, isoText m.timestamp⟩)
      ∧ (∀ en ∈ conversationData sampleState, en.role ≠ "system")
      ∧ (conversationData sampleState).length
          = sampleState.conversationHistory.length - 1
      ∧ (save_conversation sampleState "out.json" none).1
          = .saved "out.json" (conversationData sampleState)) :=
  ⟨⟨by decide, by decide⟩,
   persist_excludes_system sampleState "out.json" (by decide) (by decide)⟩

/-- A non-empty-conversation summary string can never be the fixed
no-conversation string: their first characters differ. -/
theorem stats_ne_noconv_aux (a b : String) :
    "Conversation stats: " ++ a ++ " user messages, " ++ b ++ " AI responses"
      ≠ "No conversation yet." := by
  intro h
  have h2 := congrArg (fun s => s.data.head?) h
  simp only [String.data_append] at h2
  have h3 : (some 'C' : Option Char) = some 'N' := h2
  exact absurd h3 (by decide)

/-- **C8.** `summary` is a pure function of the state; it returns the fixed
no-conversation string exactly when the Transcript has at most one entry,
and after a successful initialization followed by a successful
`send "Hello"` it reports 1 user message and 1 AI response. -/
theorem summary_counts (st : ChatbotState) (k mn resp : String)
    (n0 n1 : Nat) (h : ("Hello" : String) ≠ "") :
    (get_conversation_summary st = "No conversation yet."
      ↔ st.conversationHistory.length ≤ 1)
    ∧ get_conversation_summary
        (get_ai_response (start_chat_session ⟨k, mn, []⟩ n0) "Hello"
          (.success resp) n1).2
      = "Conversation stats: 1 user messages, 1 AI responses" := by
  constructor
  · constructor
    · intro hs
      by_contra hlen
      rw [get_conversation_summary, if_neg hlen] at hs
      exact stats_ne_noconv_aux _ _ hs
    · intro hlen
      rw [get_conversation_summary, if_pos hlen]
  · simp [get_ai_response, start_chat_session, get_conversation_summary,
      List.filter]
    rfl

/-- Witness for C8 at a concrete state and response. -/
theorem summary_counts_w :
    ("Hello" : String) ≠ ""
    ∧ ((get_conversation_summary ⟨"k", "gemini-1.5-flash", []⟩
          = "No conversation yet."
        ↔ ([] : List ChatMessage).length ≤ 1)
      ∧ get_conversation_summary
          (get_ai_response (start_chat_session ⟨"k", "gemini-1.5-flash", []⟩ 0)
            "Hello" (.success "Hi") 1).2
        = "Conversation stats: 1 user messages, 1 AI responses") :=
  ⟨by decide, summary_counts ⟨"k", "gemini-1.5-flash", []⟩ "k"
    "gemini-1.5-flash" "Hi" 0 1 (by decide)⟩

/-- Appending a non-system message to a non-empty invariant-satisfying
transcript preserves the invariant. -/
theorem transcriptInvB_append_aux (l : List ChatMessage) (m : ChatMessage)
    (hinv : transcriptInvB l = true) (hne : l ≠ [])
    (hm : m.role ≠ "system") :
    transcriptInvB (l ++ [m]) = true := by
  rcases l with _ | ⟨h0, rest⟩
  · exact absurd rfl hne
  · simp only [List.cons_append, transcriptInvB, Bool.and_eq_true,
      beq_iff_eq, List.all_eq_true] at hinv ⊢
    obtain ⟨⟨h1, h2⟩, h3⟩ := hinv
    refine ⟨⟨h1, h2⟩, ?_⟩
    intro x hx
    rw [List.mem_append] at hx
    rcases hx with hx | hx
    · exact h3 x hx
    · rw [List.mem_singleton] at hx
      subst hx
      simpa [bne_iff_ne] using hm

/-- **C9.** Every Session operation preserves the Transcript invariant:
initialization establishes it, `send` (successful or failed), `clear` and
`persist` (successful or failed write) keep the first entry the system
persona message and place no system message elsewhere; `summary` reads the
state without producing a new one. -/
theorem session_invariant (arg env : Option String) (mn ce : String)
    (cok : Bool) (n0 : Nat) (st0 : ChatbotState) (st : ChatbotState)
    (u : String) (r : RemoteResult) (now : Nat) (f : String)
    (io : Option String)
    (hstart : initChatbot arg env mn cok ce n0 = .started st0)
    (hinv : transcriptInvB st.conversationHistory = true)
    (hne : st.conversationHistory ≠ []) :
    transcriptInvB st0.conversationHistory = true
    ∧ transcriptInvB (get_ai_response st u r now).2.conversationHistory = true
    ∧ transcriptInvB (clear_history st now).conversationHistory = true
    ∧ transcriptInvB (save_conversation st f io).2.conversationHistory = true := by
  have huser : transcriptInvB
      (st.conversationHistory ++ [⟨"user", u, now⟩]) = true :=
    transcriptInvB_append_aux st.conversationHistory ⟨"user", u, now⟩
      hinv hne (by simp)
  refine ⟨?_, ?_, ?_, ?_⟩
  · unfold initChatbot at hstart
    rcases hk : effectiveApiKey arg env with _ | k <;> rw [hk] at hstart
    · exact absurd hstart (by simp)
    · by_cases hk0 : (k == "") = true
      · simp [hk0] at hstart
      · by_cases hcok : cok = true
        · simp only [hk0, if_false, hcok, if_true, Bool.false_eq_true,
            InitOutcome.started.injEq] at hstart
          subst hstart
          simp [start_chat_session, transcriptInvB]
        · simp [hk0, hcok] at hstart
  · cases r with
    | success t =>
        have h2 : transcriptInvB
            ((st.conversationHistory ++ [⟨"user", u, now⟩])
              ++ [⟨"assistant", t, now⟩]) = true :=
          transcriptInvB_append_aux _ ⟨"assistant", t, now⟩ huser
            (by simp) (by simp)
        simpa [get_ai_response] using h2
    | failure e =>
        unfold get_ai_response
        by_cases h1 : (strContainsSub (strToLower e) "quota"
            || strContainsSub (strToLower e) "limit") = true
        · simpa [h1] using huser
        · by_cases h2 : strContainsSub (strToLower e) "api" = true
          · simpa [h1, h2] using huser
          · simpa [h1, h2] using huser
  · simp [clear_history, start_chat_session, transcriptInvB]
  · cases io <;> exact hinv

/-- Witness for C9 at a concrete initialization and sample state. -/
theorem session_invariant_w :
    (initChatbot (some "k") none "gemini-1.5-flash" true "" 0
        = .started ⟨"k", "gemini-1.5-flash", [⟨"system", systemPrompt, 0⟩]⟩
      ∧ transcriptInvB sampleState.conversationHistory = true
      ∧ sampleState.conversationHistory ≠ [])
    ∧ (transcriptInvB
        (⟨"k", "gemini-1.5-flash",
          [⟨"system", systemPrompt, 0⟩]⟩ : ChatbotState).conversationHistory
        = true
      ∧ transcriptInvB
          (get_ai_response sampleState "Q" (.success "A") 3).2.conversationHistory
        = true
      ∧ transcriptInvB (clear_history sampleState 4).conversationHistory = true
      ∧ transcriptInvB
          (save_conversation sampleState "f.json" none).2.conversationHistory
        = true) :=
  ⟨⟨by decide, by decide, by decide⟩,
   session_invariant (some "k") none "gemini-1.5-flash" "" true 0
     ⟨"k", "gemini-1.5-flash", [⟨"system", systemPrompt, 0⟩]⟩ sampleState
     "Q" (.success "A") 3 "f.json" none (by decide) (by decide) (by decide)⟩

end MiniChatbot
